import Mathlib

/-!
Formal model of the trade lifecycle and portfolio accounting core of a
browser-resident trading-journal application.

The source is TypeScript; numbers are modelled as `ℚ` (the claims under
study are algebraic, not about floating-point rounding), string enums as
Lean inductives, and the `TradeAccount` string enum as plain `String`
constants so that unrecognized account names remain representable (the
ledger compares account names by string equality).  Optional fields are
`Option`.  The `<input type="number">` exit-price field holds either the
empty string (absent / rejected non-numeric keyboard input, per the HTML
number-input value sanitization) or a numeric string; it is modelled as
`Option ℚ`, `none` standing for the empty string.
-/

namespace UWF

/-- `TradeDirection` string enum from `types.ts`. -/
inductive TradeDirection
  | Long
  | Short
deriving DecidableEq

/-- `TradeSource` string enum from `types.ts`. -/
inductive TradeSource
  | SelfDiscovered
  | YouTube
  | TwitterX
  | UnusualOptions
  | AnalystReport
  | EarningsCatalyst
  | AISuggestion
  | Other
deriving DecidableEq

/-- `EmotionalState` string enum from `types.ts`. -/
inductive EmotionalState
  | Calm
  | Excited
  | FOMO
  | Revenge
deriving DecidableEq

/-- `ExitReason` string enum from `types.ts`. -/
inductive ExitReason
  | ProfitTarget
  | StopLoss
  | ThesisChanged
  | BetterOpportunity
  | Rebalancing
  | Other
deriving DecidableEq

/-- `TradeAccount.IncomeGenerator` value of the `TradeAccount` string enum. -/
def TradeAccount.IncomeGenerator : String := "Income Generator"

/-- `TradeAccount.Speculation` value of the `TradeAccount` string enum. -/
def TradeAccount.Speculation : String := "Speculation"

/-- `TradeAccount.TradingLab` value of the `TradeAccount` string enum. -/
def TradeAccount.TradingLab : String := "Trading Lab"

/-- `TradeAccount.Uncategorized` value of the `TradeAccount` string enum. -/
def TradeAccount.Uncategorized : String := "Uncategorized"

/-- `CriteriaChecklist` from `types.ts`. -/
structure CriteriaChecklist where
  catalyst45Days : Bool
  analystsCovering : Bool
  institutionalOwnership : Bool
  technicalSetup : Bool
  explainable : Bool
deriving DecidableEq

/-- The `{ price, probability }` shape of `bullCase` / `bearCase` in `types.ts`. -/
structure PriceProbability where
  price : ℚ
  probability : ℚ
deriving DecidableEq

/-- The `{ p25, p50, p100 }` shape of `takeProfit` in `types.ts`. -/
structure TakeProfitLevels where
  p25 : ℚ
  p50 : ℚ
  p100 : ℚ
deriving DecidableEq

/-- The `thesis` union type `[string, string, string] | string` from `types.ts`. -/
inductive Thesis
  | triple (first second third : String)
  | single (text : String)
deriving DecidableEq

/-- The proposed-trade object returned by the AI intake call, following the
`responseSchema` in `App.tsx`.  `entryPrice`, `positionSize` and `stopLoss`
carry the result of `parseFloat` at the point of use, so `none` models `NaN`;
`account` is a raw string that need not match any configured account. -/
structure ParsedTrade where
  account : Option String
  tradeType : Option String
  ticker : Option String
  action : Option String
  direction : TradeDirection
  quantity : ℚ
  entryPrice : Option ℚ
  positionSize : Option ℚ
  thesis : Option String
  stopLoss : Option ℚ
  emotionalState : Option EmotionalState
  validationFlags : List String
deriving DecidableEq

/-- `TradeEntryData` from `types.ts`: the common entry payload of a trade. -/
structure TradeEntryData where
  id : String
  entryDate : String
  ticker : String
  entryPrice : ℚ
  positionSize : ℚ
  shareCount : ℚ
  direction : TradeDirection
  source : TradeSource
  sourceDetail : String
  conviction : ℚ
  thesis : Thesis
  catalystDescription : String
  catalystDate : String
  bullCase : PriceProbability
  bearCase : PriceProbability
  stopLoss : ℚ
  takeProfit : TakeProfitLevels
  portfolioValueOnEntry : ℚ
  maxRiskPercent : ℚ
  emotionalState : EmotionalState
  checklist : CriteriaChecklist
  account : Option String
  rawUserInput : Option String
  frameworkData : Option ParsedTrade
deriving DecidableEq

/-- The `wouldTakeAgain` shape `{ decision: 'Yes' | 'No'; reason: string }`
from `types.ts`; `decision := true` models `'Yes'`. -/
structure WouldTakeAgainField where
  decision : Bool
  reason : String
deriving DecidableEq

/-- `TradeExitData` from `types.ts`. -/
structure TradeExitData where
  exitDate : String
  exitPrice : ℚ
  exitReason : ExitReason
  exitReasonDetail : String
  reviewRight : String
  reviewWrong : String
  lessonLearned : String
  wouldTakeAgain : WouldTakeAgainField
  selfRating : ℚ
deriving DecidableEq

/-- A `ClosedTrade` from `types.ts`: the entry payload plus the exit block. -/
structure ClosedTradeRec where
  entry : TradeEntryData
  exitData : TradeExitData
deriving DecidableEq

/-- `Trade = ActiveTrade | ClosedTrade` tagged union from `types.ts`.
An active trade carries the optional `currentPrice` mark. -/
inductive Trade
  | active (entry : TradeEntryData) (currentPrice : Option ℚ)
  | closed (c : ClosedTradeRec)
deriving DecidableEq

/-- The common entry payload of either variant. -/
def Trade.entry : Trade → TradeEntryData
  | Trade.active e _ => e
  | Trade.closed c => c.entry

/-- The `id` field of a trade. -/
def Trade.id (t : Trade) : String := t.entry.id

/-- The `status` discriminant of the tagged union. -/
def Trade.status : Trade → String
  | Trade.active _ _ => "active"
  | Trade.closed _ => "closed"

/-- View a closed-trade record as a member of the `Trade` union. -/
def ClosedTradeRec.toTrade (c : ClosedTradeRec) : Trade := Trade.closed c

/-- `AccountState` from `types.ts`; `name` is a `TradeAccount` string. -/
structure AccountState where
  name : String
  startingValue : ℚ
  currentCash : ℚ
deriving DecidableEq

/-- `Settings` from `types.ts`. -/
structure Settings where
  portfolioStartingValue : ℚ
  riskPerTrade : ℚ
  maxPositionSize : ℚ
  minCashPercent : ℚ
  tradingTimezone : String
  accounts : List AccountState
deriving DecidableEq

/-- `calculatePL` from `src/utils/helpers.ts`. -/
def calculatePL (entryPrice currentPrice shareCount : ℚ)
    (direction : TradeDirection) : ℚ :=
  if direction = TradeDirection.Long then
    (currentPrice - entryPrice) * shareCount
  else
    (entryPrice - currentPrice) * shareCount

/-- `calculatePLPercent` from `src/utils/helpers.ts`. -/
def calculatePLPercent (entryPrice currentPrice : ℚ)
    (direction : TradeDirection) : ℚ :=
  if entryPrice = 0 then 0
  else if direction = TradeDirection.Long then
    ((currentPrice - entryPrice) / entryPrice) * 100
  else
    ((entryPrice - currentPrice) / entryPrice) * 100

/-- Realized profit/loss of a closed trade: the expression
`calculatePL(entryPrice, exitData.exitPrice, shareCount, direction)`
computed by `handleCloseTrade` and by the analytics views in `App.tsx`. -/
def realizedPL (c : ClosedTradeRec) : ℚ :=
  calculatePL c.entry.entryPrice c.exitData.exitPrice
    c.entry.shareCount c.entry.direction

/-- Trade-list effect of `handleAddTrade` in `App.tsx`:
`setTrades(prev => [...prev, newTrade])`. -/
def handleAddTradeTrades (trades : List Trade) (newTrade : Trade) : List Trade :=
  trades ++ [newTrade]

/-- Accounts effect of `handleAddTrade` in `App.tsx`: the account whose name
equals `newTrade.account` has its `currentCash` debited by
`newTrade.positionSize`; every other account is returned unchanged. -/
def handleAddTradeAccounts (accounts : List AccountState)
    (newTrade : TradeEntryData) : List AccountState :=
  accounts.map fun acc =>
    if some acc.name = newTrade.account then
      { acc with currentCash := acc.currentCash - newTrade.positionSize }
    else acc

/-- Trade-list effect of `handleCloseTrade` in `App.tsx`:
`prev.map(t => t.id === closedTradeData.id ? closedTradeData : t)`. -/
def handleCloseTradeTrades (trades : List Trade)
    (closedTradeData : Trade) : List Trade :=
  trades.map fun t => if t.id = closedTradeData.id then closedTradeData else t

/-- Accounts effect of `handleCloseTrade` in `App.tsx`: the matching account
is credited by `positionSize + calculatePL(entry, exit, shares, direction)`. -/
def handleCloseTradeAccounts (accounts : List AccountState)
    (c : ClosedTradeRec) : List AccountState :=
  accounts.map fun acc =>
    if some acc.name = c.entry.account then
      { acc with currentCash :=
          acc.currentCash + c.entry.positionSize + realizedPL c }
    else acc

/-- The `TradeExitForm` component state in `App.tsx`.  The `exitPrice` field
of the number input is `Option ℚ`: `none` models the empty string (the only
falsy string, and the value the number input holds for non-numeric entry). -/
structure ExitForm where
  exitPrice : Option ℚ
  exitReason : ExitReason
  exitReasonDetail : String
  reviewRight : String
  reviewWrong : String
  lessonLearned : String
  wouldTakeAgain : Bool
  wouldTakeAgainReason : String
  selfRating : ℚ
deriving DecidableEq

/-- The initial `useState` value of the exit form in `App.tsx`. -/
def defaultExitForm : ExitForm :=
  { exitPrice := none
  , exitReason := ExitReason.ProfitTarget
  , exitReasonDetail := ""
  , reviewRight := ""
  , reviewWrong := ""
  , lessonLearned := ""
  , wouldTakeAgain := true
  , wouldTakeAgainReason := ""
  , selfRating := 3 }

/-- `TradeExitForm.handleSubmit` in `App.tsx`: rejects (returns `none`,
mirroring the early `return` after the alert) when `!form.exitPrice`;
otherwise builds the closed trade by spreading the active trade's entry
payload and attaching the exit block. -/
def tradeExitSubmit (trade : TradeEntryData) (form : ExitForm)
    (nowIso : String) : Option ClosedTradeRec :=
  match form.exitPrice with
  | none => none
  | some p =>
    some
      { entry := trade
      , exitData :=
        { exitDate := nowIso
        , exitPrice := p
        , exitReason := form.exitReason
        , exitReasonDetail := form.exitReasonDetail
        , reviewRight := form.reviewRight
        , reviewWrong := form.reviewWrong
        , lessonLearned := form.lessonLearned
        , wouldTakeAgain :=
          { decision := form.wouldTakeAgain
          , reason := form.wouldTakeAgainReason }
        , selfRating := form.selfRating } }

/-- The close interaction end to end: submitting the exit form and, on
success, applying both `handleCloseTrade` effects.  On rejection nothing
changes (the handler returns before `onConfirmClose` is invoked). -/
def dashboardCloseFlow (trades : List Trade) (accounts : List AccountState)
    (trade : TradeEntryData) (form : ExitForm) (nowIso : String) :
    List Trade × List AccountState :=
  match tradeExitSubmit trade form nowIso with
  | none => (trades, accounts)
  | some c =>
    (handleCloseTradeTrades trades c.toTrade, handleCloseTradeAccounts accounts c)

/-- JavaScript `String.prototype.padStart` restricted to a single pad
character, as used for the trade id: pad on the left up to `targetLength`. -/
def padStart (s : String) (targetLength : Nat) (padChar : Char) : String :=
  if targetLength ≤ s.length then s
  else String.mk (List.replicate (targetLength - s.length) padChar) ++ s

/-- `AIJournalEntryModal.handleConfirm` in `App.tsx`: coerces the parsed AI
fields (`parseFloat(x) || 0` becomes `Option.getD 0`), assigns the
sequential id from the current trade count, derives `shareCount`, and
builds the new active trade. -/
def handleConfirm (parsed : ParsedTrade) (userInput : String) (nowIso : String)
    (trades : List Trade) (settings : Settings)
    (activeTrades : List (TradeEntryData × Option ℚ)) : Trade :=
  let entryPrice : ℚ := parsed.entryPrice.getD 0
  let positionSize : ℚ := parsed.positionSize.getD 0
  let assignedAccount : String := parsed.account.getD TradeAccount.Uncategorized
  let currentPortfolioValue : ℚ :=
    settings.accounts.foldl (fun sum acc => sum + acc.currentCash) 0
      + activeTrades.foldl (fun sum t => sum + t.1.positionSize) 0
  Trade.active
    { id := "TRADE-" ++ padStart (Nat.repr (trades.length + 1)) 3 '0'
    , entryDate := nowIso
    , ticker :=
        match parsed.ticker with
        | none => "N/A"
        | some tk => if tk.toUpper = "" then "N/A" else tk.toUpper
    , entryPrice := entryPrice
    , positionSize := positionSize
    , shareCount :=
        if 0 < entryPrice then positionSize / entryPrice else parsed.quantity
    , direction := parsed.direction
    , source := TradeSource.AISuggestion
    , sourceDetail := "AI Journal Entry"
    , conviction := 5
    , thesis := Thesis.single (parsed.thesis.getD "")
    , catalystDescription := ""
    , catalystDate := ""
    , bullCase := { price := 0, probability := 50 }
    , bearCase := { price := 0, probability := 50 }
    , stopLoss := parsed.stopLoss.getD 0
    , takeProfit := { p25 := 0, p50 := 0, p100 := 0 }
    , portfolioValueOnEntry := currentPortfolioValue
    , maxRiskPercent := settings.riskPerTrade
    , emotionalState := parsed.emotionalState.getD EmotionalState.Calm
    , checklist :=
      { catalyst45Days := false
      , analystsCovering := false
      , institutionalOwnership := false
      , technicalSetup := false
      , explainable := false }
    , account := some assignedAccount
    , rawUserInput := some userInput
    , frameworkData := some parsed }
    none

/-- The per-partition statistics record of `AccountPerformanceCard`. -/
structure PartitionStats where
  totalTrades : Nat
  winRate : ℚ
  totalPL : ℚ
  avgPL : ℚ
deriving DecidableEq

/-- The `stats` computation of `AccountPerformanceCard` in `App.tsx`:
zeroes on an empty partition, otherwise a single pass accumulating
`totalPL` and the win counter, then `winRate = (wins / totalTrades) * 100`
and `avgPL = totalPL / totalTrades`. -/
def accountPerformanceStats (trades : List ClosedTradeRec) : PartitionStats :=
  let totalTrades := trades.length
  if totalTrades = 0 then
    { totalTrades := 0, winRate := 0, totalPL := 0, avgPL := 0 }
  else
    let acc := trades.foldl
      (fun (st : ℚ × Nat) t =>
        (st.1 + realizedPL t, if 0 < realizedPL t then st.2 + 1 else st.2))
      (0, 0)
    { totalTrades := totalTrades
    , winRate := ((acc.2 : ℚ) / (totalTrades : ℚ)) * 100
    , totalPL := acc.1
    , avgPL := acc.1 / (totalTrades : ℚ) }

/-- One row of `AnalyticsView.sourceData` in `App.tsx`. -/
structure SourceStats where
  name : TradeSource
  trades : Nat
  winRate : ℚ
deriving DecidableEq

/-- The `AnalyticsView.sourceData` entry for one source key: the group is
the closed trades with that source (insertion order preserved), and
`winRate = trades.length > 0 ? (wins / trades.length) * 100 : 0`. -/
def sourceStatsFor (src : TradeSource)
    (closedTrades : List ClosedTradeRec) : SourceStats :=
  let group := closedTrades.filter fun t => t.entry.source = src
  let wins := (group.filter fun t => 0 < realizedPL t).length
  { name := src
  , trades := group.length
  , winRate :=
      if 0 < group.length then ((wins : ℚ) / (group.length : ℚ)) * 100 else 0 }

/-- A concrete entry payload used by the test scenarios: entry at 100,
10 shares, 1000 committed, Long, attributed to the Income Generator account. -/
def baseEntry : TradeEntryData :=
  { id := "TRADE-001"
  , entryDate := "2026-01-01T00:00:00.000Z"
  , ticker := "TSM"
  , entryPrice := 100
  , positionSize := 1000
  , shareCount := 10
  , direction := TradeDirection.Long
  , source := TradeSource.AISuggestion
  , sourceDetail := "AI Journal Entry"
  , conviction := 5
  , thesis := Thesis.single ""
  , catalystDescription := ""
  , catalystDate := ""
  , bullCase := { price := 0, probability := 50 }
  , bearCase := { price := 0, probability := 50 }
  , stopLoss := 0
  , takeProfit := { p25 := 0, p50 := 0, p100 := 0 }
  , portfolioValueOnEntry := 22000
  , maxRiskPercent := 2
  , emotionalState := EmotionalState.Calm
  , checklist :=
    { catalyst45Days := false
    , analystsCovering := false
    , institutionalOwnership := false
    , technicalSetup := false
    , explainable := false }
  , account := some TradeAccount.IncomeGenerator
  , rawUserInput := none
  , frameworkData := none }

/-- A concrete exit block: exit at 120, so the Long scenario above realizes
a 200 profit. -/
def baseExit : TradeExitData :=
  { exitDate := "2026-02-01T00:00:00.000Z"
  , exitPrice := 120
  , exitReason := ExitReason.ProfitTarget
  , exitReasonDetail := ""
  , reviewRight := ""
  , reviewWrong := ""
  , lessonLearned := ""
  , wouldTakeAgain := { decision := true, reason := "" }
  , selfRating := 3 }

/-- A single-account ledger: Income Generator with 5000 cash. -/
def c1Accounts : List AccountState :=
  [{ name := TradeAccount.IncomeGenerator, startingValue := 5000, currentCash := 5000 }]

/-- The default three-account ledger from the `settings` initial state. -/
def stdAccounts : List AccountState :=
  [ { name := TradeAccount.IncomeGenerator, startingValue := 17000, currentCash := 17000 }
  , { name := TradeAccount.Speculation, startingValue := 3000, currentCash := 3000 }
  , { name := TradeAccount.TradingLab, startingValue := 2000, currentCash := 2000 } ]

/-- A one-element trade store holding the active demo trade. -/
def c3Trades : List Trade := [Trade.active baseEntry none]

/-- The exit form with only the exit price filled in (120). -/
def c3Form : ExitForm := { defaultExitForm with exitPrice := some 120 }

/-- The closed record that submitting `c3Form` over `baseEntry` produces. -/
def c3Closed : ClosedTradeRec := { entry := baseEntry, exitData := baseExit }

/-- A parsed AI proposal with `entryPrice = 150` and `positionSize = 15000`. -/
def c6Parsed : ParsedTrade :=
  { account := some TradeAccount.IncomeGenerator
  , tradeType := none
  , ticker := some "TSM"
  , action := some "OPEN"
  , direction := TradeDirection.Long
  , quantity := 0
  , entryPrice := some 150
  , positionSize := some 15000
  , thesis := some ""
  , stopLoss := none
  , emotionalState := none
  , validationFlags := [] }

/-- The default settings record from the `useLocalStorage` initial state. -/
def defaultSettings : Settings :=
  { portfolioStartingValue := 22000
  , riskPerTrade := 2
  , maxPositionSize := 30
  , minCashPercent := 5
  , tradingTimezone := "UTC"
  , accounts := stdAccounts }

/-- A partition of three closed trades realizing +100, -50 and +30:
one share each, Long, entries at 100, exits at 200, 50 and 130. -/
def c8Trades : List ClosedTradeRec :=
  [ { entry := { baseEntry with shareCount := 1 }
    , exitData := { baseExit with exitPrice := 200 } }
  , { entry := { baseEntry with id := "TRADE-002", shareCount := 1 }
    , exitData := { baseExit with exitPrice := 50 } }
  , { entry := { baseEntry with id := "TRADE-003", shareCount := 1 }
    , exitData := { baseExit with exitPrice := 130 } } ]

/-- An exit block whose exit price equals `baseEntry`'s entry price. -/
def c10Exit : TradeExitData := { baseExit with exitPrice := 100 }

/-- The timestamp stamped on the demo exit block. -/
def nowStamp : String := "2026-02-01T00:00:00.000Z"

/-- A trade attributed to an account name no configured account carries. -/
def c4Trade : TradeEntryData := { baseEntry with account := some "Banana" }

/-- A trade attributed to the Uncategorized fallback bucket. -/
def c4TradeUncat : TradeEntryData :=
  { baseEntry with account := some TradeAccount.Uncategorized }

theorem calculatePL_self (e s : ℚ) (d : TradeDirection) :
    calculatePL e e s d = 0 := by
  cases d <;> simp [calculatePL]

theorem padStart_three_eq (s : String) (c : Char) :
    padStart s 3 c = String.mk (List.replicate (3 - s.length) c) ++ s := by
  by_cases h : 3 ≤ s.length
  · have h0 : 3 - s.length = 0 := by omega
    rw [padStart, if_pos h, h0]
    obtain ⟨data⟩ := s
    rfl
  · rw [padStart, if_neg h]

theorem statsFoldl_eq (l : List ClosedTradeRec) (a0 : ℚ) (w0 : Nat) :
    l.foldl
        (fun (st : ℚ × Nat) t =>
          (st.1 + realizedPL t, if 0 < realizedPL t then st.2 + 1 else st.2))
        (a0, w0)
      = (a0 + (l.map realizedPL).sum,
         w0 + (l.filter fun t => 0 < realizedPL t).length) := by
  induction l generalizing a0 w0 with
  | nil => simp
  | cons hd tl ih =>
    simp only [List.foldl_cons, List.map_cons, List.sum_cons, List.filter_cons, ih]
    by_cases h : 0 < realizedPL hd
    · simp [h]
      constructor
      · ring
      · omega
    · simp [h]
      ring

theorem handleCloseTradeTrades_filter_length (trades : List Trade) (c : Trade) :
    ((handleCloseTradeTrades trades c).filter fun t => t.id = c.id).length
      = (trades.filter fun t => t.id = c.id).length := by
  induction trades with
  | nil => rfl
  | cons hd tl ih =>
    simp only [handleCloseTradeTrades, List.map_cons, List.filter_cons] at *
    by_cases h : hd.id = c.id
    · simp [h, ih]
    · simp [h, ih]

theorem handleCloseTradeTrades_mem (trades : List Trade) (c : Trade) :
    ∀ t ∈ handleCloseTradeTrades trades c, t.id = c.id → t = c := by
  intro t ht hid
  rcases List.mem_map.1 ht with ⟨u, _, rfl⟩
  by_cases h : u.id = c.id
  · rw [if_pos h]
  · rw [if_neg h] at hid ⊢
    exact absurd hid h

theorem handleAddTradeAccounts_no_match (accounts : List AccountState)
    (t : TradeEntryData) (h : ∀ acc ∈ accounts, some acc.name ≠ t.account) :
    handleAddTradeAccounts accounts t = accounts := by
  induction accounts with
  | nil => rfl
  | cons hd tl ih =>
    simp only [handleAddTradeAccounts, List.map_cons] at *
    rw [if_neg (h hd (List.mem_cons_self hd tl)),
      ih fun a ha => h a (List.mem_cons_of_mem hd ha)]

theorem handleCloseTradeAccounts_no_match (accounts : List AccountState)
    (c : ClosedTradeRec) (h : ∀ acc ∈ accounts, some acc.name ≠ c.entry.account) :
    handleCloseTradeAccounts accounts c = accounts := by
  induction accounts with
  | nil => rfl
  | cons hd tl ih =>
    simp only [handleCloseTradeAccounts, List.map_cons] at *
    rw [if_neg (h hd (List.mem_cons_self hd tl)),
      ih fun a ha => h a (List.mem_cons_of_mem hd ha)]

/-- C2: for all (finite) numeric inputs, `calculatePL` returns
`(mark − entry) × shares` for Long and `(entry − mark) × shares` for Short;
these two branches are exhaustive and the function is total. -/
theorem claim_C2_profit_loss_formula (e m s : ℚ) :
    calculatePL e m s TradeDirection.Long = (m - e) * s
    ∧ calculatePL e m s TradeDirection.Short = (e - m) * s
    ∧ ∀ d : TradeDirection,
        calculatePL e m s d
          = if d = TradeDirection.Long then (m - e) * s else (e - m) * s := by
  refine ⟨by simp [calculatePL], by simp [calculatePL], fun d => rfl⟩

/-- C5: `calculatePLPercent` returns 0 whenever the entry price is 0 (the
division is guarded), and for a nonzero entry price returns the percentage
change oriented by direction. -/
theorem claim_C5_zero_entry_guard :
    (∀ (m : ℚ) (d : TradeDirection), calculatePLPercent 0 m d = 0)
    ∧ ∀ (e m : ℚ) (d : TradeDirection), e ≠ 0 →
        calculatePLPercent e m d
          = if d = TradeDirection.Long
            then ((m - e) / e) * 100
            else ((e - m) / e) * 100 := by
  constructor
  · intro m d
    simp [calculatePLPercent]
  · intro e m d he
    cases d <;> simp [calculatePLPercent, he]

/-- C5 witness: the nonzero-entry branch evaluated at entry 150, mark 160,
Long, where the guard hypothesis is discharged concretely. -/
theorem claim_C5_zero_entry_guard_witness :
    calculatePLPercent 150 160 TradeDirection.Long
      = if TradeDirection.Long = TradeDirection.Long
        then ((160 - 150 : ℚ) / 150) * 100
        else ((150 - 160 : ℚ) / 150) * 100 :=
  claim_C5_zero_entry_guard.2 150 160 TradeDirection.Long (by norm_num)

/-- C1: opening a trade debits the matching account's `currentCash` by the
trade's `positionSize`, and closing it credits the same account by
`positionSize + calculatePL(entryPrice, exitPrice, shareCount, direction)`;
concretely, opening with positionSize 1000 on an account with cash 5000
leaves 4000, and closing that trade at a 200 profit leaves 5200. -/
theorem claim_C1_open_debit_close_credit (accounts : List AccountState)
    (t : TradeEntryData) (x : TradeExitData) (i : Nat) (hi : i < accounts.length)
    (hmatch : some ((accounts.get ⟨i, hi⟩).name) = t.account) :
    ((handleAddTradeAccounts accounts t).get
        ⟨i, by simpa [handleAddTradeAccounts] using hi⟩).currentCash
      = (accounts.get ⟨i, hi⟩).currentCash - t.positionSize
    ∧ ((handleCloseTradeAccounts accounts ⟨t, x⟩).get
        ⟨i, by simpa [handleCloseTradeAccounts] using hi⟩).currentCash
      = (accounts.get ⟨i, hi⟩).currentCash + t.positionSize
          + calculatePL t.entryPrice x.exitPrice t.shareCount t.direction
    ∧ handleAddTradeAccounts c1Accounts baseEntry
        = [{ name := TradeAccount.IncomeGenerator
           , startingValue := 5000, currentCash := 4000 }]
    ∧ handleCloseTradeAccounts (handleAddTradeAccounts c1Accounts baseEntry)
          { entry := baseEntry, exitData := baseExit }
        = [{ name := TradeAccount.IncomeGenerator
           , startingValue := 5000, currentCash := 5200 }] := by
  refine ⟨?_, ?_, ?_, ?_⟩
  · simp only [List.get_eq_getElem] at hmatch ⊢
    simp [handleAddTradeAccounts, hmatch]
  · simp only [List.get_eq_getElem] at hmatch ⊢
    simp [handleCloseTradeAccounts, realizedPL, hmatch]
  · norm_num [handleAddTradeAccounts, c1Accounts, baseEntry]
  · norm_num [handleAddTradeAccounts, handleCloseTradeAccounts, realizedPL,
      calculatePL, c1Accounts, baseEntry, baseExit]

/-- C1 witness: the debit and credit equations at a concrete single-account
ledger, index 0, with the matching-name hypothesis discharged concretely. -/
theorem claim_C1_open_debit_close_credit_witness :
    ((handleAddTradeAccounts c1Accounts baseEntry).get
        ⟨0, by decide⟩).currentCash
      = (c1Accounts.get ⟨0, by decide⟩).currentCash - baseEntry.positionSize
    ∧ ((handleCloseTradeAccounts c1Accounts ⟨baseEntry, baseExit⟩).get
        ⟨0, by decide⟩).currentCash
      = (c1Accounts.get ⟨0, by decide⟩).currentCash + baseEntry.positionSize
          + calculatePL baseEntry.entryPrice baseExit.exitPrice
              baseEntry.shareCount baseEntry.direction := by
  have h := claim_C1_open_debit_close_credit c1Accounts baseEntry baseExit 0
    (by decide) (by decide)
  exact ⟨h.1, h.2.1⟩

/-- C4: accounts whose name differs from the trade's account are untouched
by both the open and the close cash update, and when no configured account
matches (Uncategorized or any unrecognized string) the whole account list
is returned unchanged, with no error. -/
theorem claim_C4_unmatched_account_frame (accounts : List AccountState)
    (t : TradeEntryData) (c : ClosedTradeRec) :
    (∀ (i : Nat) (hi : i < accounts.length),
        some ((accounts.get ⟨i, hi⟩).name) ≠ t.account →
          (handleAddTradeAccounts accounts t).get
              ⟨i, by simpa [handleAddTradeAccounts] using hi⟩
            = accounts.get ⟨i, hi⟩)
    ∧ (∀ (i : Nat) (hi : i < accounts.length),
        some ((accounts.get ⟨i, hi⟩).name) ≠ c.entry.account →
          (handleCloseTradeAccounts accounts c).get
              ⟨i, by simpa [handleCloseTradeAccounts] using hi⟩
            = accounts.get ⟨i, hi⟩)
    ∧ ((∀ acc ∈ accounts, some acc.name ≠ t.account) →
        handleAddTradeAccounts accounts t = accounts)
    ∧ ((∀ acc ∈ accounts, some acc.name ≠ c.entry.account) →
        handleCloseTradeAccounts accounts c = accounts) := by
  refine ⟨?_, ?_, handleAddTradeAccounts_no_match accounts t,
    handleCloseTradeAccounts_no_match accounts c⟩
  · intro i hi h
    simp only [List.get_eq_getElem] at h ⊢
    simp [handleAddTradeAccounts, h]
  · intro i hi h
    simp only [List.get_eq_getElem] at h ⊢
    simp [handleCloseTradeAccounts, h]

/-- C4 witness: on the default three-account ledger, a trade assigned to
the unrecognized account name "Banana" leaves the ledger unchanged on open
and close, a trade assigned to Uncategorized likewise, and the first
account is untouched pointwise; every hypothesis is discharged concretely. -/
theorem claim_C4_unmatched_account_frame_witness :
    handleAddTradeAccounts stdAccounts c4Trade = stdAccounts
    ∧ handleCloseTradeAccounts stdAccounts ⟨c4Trade, baseExit⟩ = stdAccounts
    ∧ handleAddTradeAccounts stdAccounts c4TradeUncat = stdAccounts
    ∧ (handleAddTradeAccounts stdAccounts c4Trade).get ⟨0, by decide⟩
        = stdAccounts.get ⟨0, by decide⟩ := by
  have h1 := claim_C4_unmatched_account_frame stdAccounts c4Trade
    ⟨c4Trade, baseExit⟩
  have h2 := claim_C4_unmatched_account_frame stdAccounts c4TradeUncat
    ⟨c4TradeUncat, baseExit⟩
  exact ⟨h1.2.2.1 (by decide), h1.2.2.2 (by decide), h2.2.2.1 (by decide),
    h1.1 0 (by decide) (by decide)⟩

/-- C10: opening a trade and closing it at an exit price equal to its entry
price restores every account, in particular the matching account's
`currentCash`, exactly (the realized P/L is zero for both Long and Short,
so the credit cancels the debit). -/
theorem claim_C10_flat_close_restores_cash (accounts : List AccountState)
    (t : TradeEntryData) (x : TradeExitData) (hx : x.exitPrice = t.entryPrice) :
    handleCloseTradeAccounts (handleAddTradeAccounts accounts t) ⟨t, x⟩
      = accounts := by
  rw [handleAddTradeAccounts, handleCloseTradeAccounts, List.map_map]
  have hpl : realizedPL ⟨t, x⟩ = 0 := by
    simp [realizedPL, hx, calculatePL_self]
  have h : ∀ a : AccountState,
      ((fun acc =>
          if some acc.name = (ClosedTradeRec.mk t x).entry.account then
            { acc with currentCash :=
                acc.currentCash + (ClosedTradeRec.mk t x).entry.positionSize
                  + realizedPL ⟨t, x⟩ }
          else acc) ∘
        (fun acc =>
          if some acc.name = t.account then
            { acc with currentCash := acc.currentCash - t.positionSize }
          else acc)) a = a := by
    intro a
    obtain ⟨an, asv, acc⟩ := a
    by_cases hc : some an = t.account
    · simp [Function.comp, hc, hpl]
    · simp [Function.comp, hc]
  induction accounts with
  | nil => rfl
  | cons hd tl ih => simp only [List.map_cons, h hd, ih]

/-- C10 witness: the round trip evaluated on the default ledger with the
demo trade closed flat at its entry price of 100. -/
theorem claim_C10_flat_close_restores_cash_witness :
    handleCloseTradeAccounts (handleAddTradeAccounts stdAccounts baseEntry)
        ⟨baseEntry, c10Exit⟩
      = stdAccounts :=
  claim_C10_flat_close_restores_cash stdAccounts baseEntry c10Exit rfl

/-- C3: a successful close produces a record identical to the input active
trade on every entry field (id, entryPrice, positionSize, ticker, direction,
shareCount, account included), with status flipped to closed and the exit
block attached; replacing by id in a store holding exactly one record with
that id leaves exactly one record with that id, that record equal to the
closed one, and the store size unchanged. -/
theorem claim_C3_close_replaces_record (trades : List Trade)
    (trade : TradeEntryData) (form : ExitForm) (nowIso : String)
    (ct : ClosedTradeRec)
    (hsubmit : tradeExitSubmit trade form nowIso = some ct)
    (hunique : (trades.filter fun u => u.id = trade.id).length = 1) :
    ct.entry = trade
    ∧ ct.toTrade.status = "closed"
    ∧ ct.toTrade = Trade.closed { entry := trade, exitData := ct.exitData }
    ∧ (handleCloseTradeTrades trades ct.toTrade).length = trades.length
    ∧ ((handleCloseTradeTrades trades ct.toTrade).filter
        fun u => u.id = trade.id).length = 1
    ∧ ∀ u ∈ handleCloseTradeTrades trades ct.toTrade,
        u.id = trade.id → u = ct.toTrade := by
  obtain ⟨ce, cx⟩ := ct
  cases hp : form.exitPrice with
  | none => simp [tradeExitSubmit, hp] at hsubmit
  | some p =>
    simp only [tradeExitSubmit, hp, Option.some.injEq,
      ClosedTradeRec.mk.injEq] at hsubmit
    obtain ⟨h1, _⟩ := hsubmit
    subst h1
    have hid : (ClosedTradeRec.mk trade cx).toTrade.id = trade.id := rfl
    refine ⟨rfl, rfl, rfl, by simp [handleCloseTradeTrades], ?_, ?_⟩
    · rw [← hid, handleCloseTradeTrades_filter_length, hid]
      exact hunique
    · intro u hu hu2
      exact handleCloseTradeTrades_mem trades _ u hu (by rw [hid]; exact hu2)

/-- C3 witness: submitting the demo exit form over the demo active trade
yields exactly the demo closed record, and replacing it in the one-element
store behaves as stated; both hypotheses are discharged concretely. -/
theorem claim_C3_close_replaces_record_witness :
    c3Closed.entry = baseEntry
    ∧ c3Closed.toTrade.status = "closed"
    ∧ (handleCloseTradeTrades c3Trades c3Closed.toTrade).length
        = c3Trades.length
    ∧ ((handleCloseTradeTrades c3Trades c3Closed.toTrade).filter
        fun u => u.id = baseEntry.id).length = 1 := by
  have h := claim_C3_close_replaces_record c3Trades baseEntry c3Form nowStamp
    c3Closed rfl (by decide)
  exact ⟨h.1, h.2.1, h.2.2.2.1, h.2.2.2.2.1⟩

/-- C7: the close submission rejects, changing neither the trade store nor
the accounts, exactly when the exit price field is empty (absent or
non-numeric input, which the number input holds as the empty string); with
a numeric exit price supplied the close succeeds for any values of the
remaining (defaulted) exit fields, carrying that price into the exit block. -/
theorem claim_C7_exit_price_validation (trades : List Trade)
    (accounts : List AccountState) (trade : TradeEntryData) (form : ExitForm)
    (nowIso : String) :
    (tradeExitSubmit trade form nowIso = none ↔ form.exitPrice = none)
    ∧ (form.exitPrice = none →
        dashboardCloseFlow trades accounts trade form nowIso
          = (trades, accounts))
    ∧ (∀ p : ℚ, form.exitPrice = some p →
        ∃ ct : ClosedTradeRec,
          tradeExitSubmit trade form nowIso = some ct
          ∧ ct.entry = trade
          ∧ ct.exitData.exitPrice = p
          ∧ ct.exitData.exitReason = form.exitReason
          ∧ ct.exitData.selfRating = form.selfRating)
    ∧ ∀ p : ℚ,
        (tradeExitSubmit trade { defaultExitForm with exitPrice := some p }
          nowIso).isSome = true := by
  refine ⟨?_, ?_, ?_, fun p => rfl⟩
  · cases hp : form.exitPrice <;> simp [tradeExitSubmit, hp]
  · intro hp
    simp [dashboardCloseFlow, tradeExitSubmit, hp]
  · intro p hp
    refine ⟨{ entry := trade
            , exitData :=
              { exitDate := nowIso
              , exitPrice := p
              , exitReason := form.exitReason
              , exitReasonDetail := form.exitReasonDetail
              , reviewRight := form.reviewRight
              , reviewWrong := form.reviewWrong
              , lessonLearned := form.lessonLearned
              , wouldTakeAgain :=
                { decision := form.wouldTakeAgain
                , reason := form.wouldTakeAgainReason }
              , selfRating := form.selfRating } }, ?_, rfl, rfl, rfl, rfl⟩
    simp [tradeExitSubmit, hp]

/-- C7 witness: with the empty default form the flow is a no-op on the
concrete store and ledger, and with exit price 120 filled in the submission
succeeds; the hypotheses are discharged concretely. -/
theorem claim_C7_exit_price_validation_witness :
    dashboardCloseFlow c3Trades c1Accounts baseEntry defaultExitForm nowStamp
      = (c3Trades, c1Accounts)
    ∧ ∃ ct : ClosedTradeRec,
        tradeExitSubmit baseEntry c3Form nowStamp = some ct
        ∧ ct.entry = baseEntry
        ∧ ct.exitData.exitPrice = 120
        ∧ ct.exitData.exitReason = c3Form.exitReason
        ∧ ct.exitData.selfRating = c3Form.selfRating := by
  have h1 := claim_C7_exit_price_validation c3Trades c1Accounts baseEntry
    defaultExitForm nowStamp
  have h2 := claim_C7_exit_price_validation c3Trades c1Accounts baseEntry
    c3Form nowStamp
  exact ⟨h1.2.1 rfl, h2.2.2.1 120 rfl⟩

/-- C6: trade creation derives `shareCount` as `positionSize / entryPrice`
when the (coerced) entry price is positive and falls back to the parsed
quantity hint otherwise; concretely, entryPrice 150 with positionSize 15000
gives shareCount 100, and closing that trade at 160 Long realizes a P/L of
1000 and a percentage P/L of 20/3 ≈ 6.67. -/
theorem claim_C6_share_count_derivation (parsed : ParsedTrade)
    (userInput nowIso : String) (trades : List Trade) (settings : Settings)
    (activeTrades : List (TradeEntryData × Option ℚ)) :
    (handleConfirm parsed userInput nowIso trades settings
        activeTrades).entry.shareCount
      = (if 0 < parsed.entryPrice.getD 0
         then parsed.positionSize.getD 0 / parsed.entryPrice.getD 0
         else parsed.quantity)
    ∧ (handleConfirm c6Parsed userInput nowIso trades settings
        activeTrades).entry.shareCount = 100
    ∧ calculatePL 150 160 100 TradeDirection.Long = 1000
    ∧ calculatePLPercent 150 160 TradeDirection.Long = 20 / 3
    ∧ |calculatePLPercent 150 160 TradeDirection.Long - 667 / 100|
        < 1 / 100 := by
  have hv : calculatePLPercent 150 160 TradeDirection.Long = 20 / 3 := by
    norm_num [calculatePLPercent]
  refine ⟨rfl, ?_, by norm_num [calculatePL], hv, ?_⟩
  · simp only [handleConfirm, c6Parsed, Trade.entry, Option.getD_some]
    norm_num
  · rw [hv, abs_sub_lt_iff]
    norm_num

/-- C9: the id assigned to a newly created trade is the string `TRADE-`
followed by the decimal representation of (existing trade count + 1)
left-padded with zeros to at least 3 digits, a pure function of the trade
count; e.g. counts 0, 41 and 999 give TRADE-001, TRADE-042 and TRADE-1000. -/
theorem claim_C9_sequential_trade_id (parsed : ParsedTrade)
    (userInput nowIso : String) (trades : List Trade) (settings : Settings)
    (activeTrades : List (TradeEntryData × Option ℚ)) :
    (handleConfirm parsed userInput nowIso trades settings
        activeTrades).entry.id
      = "TRADE-" ++ padStart (Nat.repr (trades.length + 1)) 3 '0'
    ∧ (∃ z : String,
        (handleConfirm parsed userInput nowIso trades settings
            activeTrades).entry.id
          = "TRADE-" ++ (z ++ Nat.repr (trades.length + 1))
        ∧ z.data
            = List.replicate (3 - (Nat.repr (trades.length + 1)).length) '0')
    ∧ "TRADE-" ++ padStart (Nat.repr (0 + 1)) 3 '0' = "TRADE-001"
    ∧ "TRADE-" ++ padStart (Nat.repr (41 + 1)) 3 '0' = "TRADE-042"
    ∧ "TRADE-" ++ padStart (Nat.repr (999 + 1)) 3 '0' = "TRADE-1000" := by
  refine ⟨rfl, ⟨String.mk (List.replicate
      (3 - (Nat.repr (trades.length + 1)).length) '0'), ?_, rfl⟩,
    by decide, by decide, by decide⟩
  show "TRADE-" ++ padStart (Nat.repr (trades.length + 1)) 3 '0' = _
  rw [padStart_three_eq]

theorem c8_stats_eval :
    accountPerformanceStats c8Trades
      = { totalTrades := 3, winRate := 200 / 3
        , totalPL := 80, avgPL := 80 / 3 } := by
  norm_num [accountPerformanceStats, realizedPL, calculatePL, c8Trades,
    baseEntry, baseExit]

/-- C8 counterexample: on the partition of three closed trades with
realized P/L +100, −50 and +30, the computed `winRate` field is 200/3
(the ratio expressed as a percentage), not the claimed ratio 2/3. -/
theorem claim_C8_win_rate_counterexample :
    (accountPerformanceStats c8Trades).winRate = 200 / 3
    ∧ (accountPerformanceStats c8Trades).winRate ≠ 2 / 3 := by
  rw [c8_stats_eval]
  norm_num

/-- C8 (amended): partition aggregates report the trade count, the win
rate as a percentage `(wins / count) × 100` (a win being a trade with
positive realized P/L), the summed P/L, and `avgPL = totalPL / count`; an
empty partition yields all-zero statistics with no division error; the
three-trade example yields winRate 200/3 (≈ 66.7%), totalPL 80 and
avgPL 80/3 (≈ 26.7). -/
theorem claim_C8_amended_partition_stats (l : List ClosedTradeRec)
    (src : TradeSource) (g : List ClosedTradeRec) :
    accountPerformanceStats []
      = { totalTrades := 0, winRate := 0, totalPL := 0, avgPL := 0 }
    ∧ (l ≠ [] →
        accountPerformanceStats l
          = { totalTrades := l.length
            , winRate := (((l.filter fun t => 0 < realizedPL t).length : ℚ)
                / (l.length : ℚ)) * 100
            , totalPL := (l.map realizedPL).sum
            , avgPL := (l.map realizedPL).sum / (l.length : ℚ) })
    ∧ (sourceStatsFor src g).trades
        = (g.filter fun t => t.entry.source = src).length
    ∧ (sourceStatsFor src []).trades = 0
    ∧ (sourceStatsFor src []).winRate = 0
    ∧ (accountPerformanceStats c8Trades).totalTrades = 3
    ∧ (accountPerformanceStats c8Trades).winRate = 200 / 3
    ∧ (accountPerformanceStats c8Trades).totalPL = 80
    ∧ (accountPerformanceStats c8Trades).avgPL = 80 / 3 := by
  refine ⟨rfl, ?_, rfl, rfl, rfl, ?_, ?_, ?_, ?_⟩
  · intro hl
    have h0 : l.length ≠ 0 := by
      simpa [List.length_eq_zero] using hl
    simp only [accountPerformanceStats, statsFoldl_eq, if_neg h0, zero_add]
  · rw [c8_stats_eval]
  · rw [c8_stats_eval]
  · rw [c8_stats_eval]
  · rw [c8_stats_eval]

/-- C8 amended witness: the nonempty-partition equation applied at the
concrete three-trade partition, with the nonemptiness hypothesis
discharged concretely. -/
theorem claim_C8_amended_partition_stats_witness :
    accountPerformanceStats c8Trades
      = { totalTrades := c8Trades.length
        , winRate := (((c8Trades.filter fun t => 0 < realizedPL t).length : ℚ)
            / (c8Trades.length : ℚ)) * 100
        , totalPL := (c8Trades.map realizedPL).sum
        , avgPL := (c8Trades.map realizedPL).sum / (c8Trades.length : ℚ) } :=
  (claim_C8_amended_partition_stats c8Trades TradeSource.AISuggestion []).2.1
    (by decide)

end UWF
